import Mathlib

/-!
Verification development for the `anonymiser` repository (files `try.py` and
`anon.py`).  The Python sources are shallowly embedded: text is `List Char`
(Python `str` code points), offsets are `Nat`, confidence scores are `ℚ`
(the float literals `0.7`, `0.8`, `0.85`, `0.9` are exact in binary-robust
comparisons, so rational arithmetic is faithful), and a Python function that
may raise an uncaught exception is modelled as returning `Option` (`none` =
the exception propagates to the caller).

The regular expressions of the sources are hand-compiled into an explicit
pattern AST `Pat` together with a backtracking matcher `matchPat` that follows
Python `re` semantics: leftmost alternation, greedy `?`/`*`/`+`/`{n,}` with
backtracking, `\b` word boundaries, and `re.IGNORECASE` folded into the
character predicates (the processed texts are ASCII, where Python's Unicode
`\w`/`\s` coincide with the ASCII classes used here).
-/

set_option maxRecDepth 8000
set_option maxHeartbeats 1600000

namespace Anonymiser

/-- ASCII uppercase letter, the `[A-Z]` class of the sources. -/
def isUpperA (c : Char) : Bool := 'A' ≤ c && c ≤ 'Z'

/-- ASCII lowercase letter, the `[a-z]` class of the sources. -/
def isLowerA (c : Char) : Bool := 'a' ≤ c && c ≤ 'z'

/-- ASCII letter, also what `[A-Z]` / `[a-z]` match under `re.IGNORECASE`. -/
def isLetterA (c : Char) : Bool := isUpperA c || isLowerA c

/-- ASCII digit, the `\d` class. -/
def isDigitA (c : Char) : Bool := '0' ≤ c && c ≤ '9'

/-- Python's `\s` on ASCII text: space, tab, newline, CR, VT, FF. -/
def isWsA (c : Char) : Bool :=
  c == ' ' || c == '\t' || c == '\n' || c == '\r' || c == '\x0b' || c == '\x0c'

/-- Python's `\w` on ASCII text, used for `\b` word boundaries. -/
def isWordC (c : Char) : Bool := isLetterA c || isDigitA c || c == '_'

/-- Case-insensitive match of input char `c` against pattern literal `pc`
(`re.IGNORECASE` on ASCII letters). -/
def icMatches (pc c : Char) : Bool :=
  c == pc || (isUpperA pc && (c.toNat == pc.toNat + 32))
    || (isLowerA pc && (c.toNat + 32 == pc.toNat))

/-- Pattern AST: the fragment of Python `re` used by the two source files.
`grp` marks the one capture group whose span the source reads back via
`match.start(match.lastindex)` / `match.groups()[-1]` (in every source
pattern that group is the last group and always participates in a match). -/
inductive Pat where
  | eps : Pat
  | cls : (Char → Bool) → Pat
  | seq : Pat → Pat → Pat
  | alt : Pat → Pat → Pat
  | opt : Pat → Pat
  | star : Pat → Pat
  | wb : Pat
  | nla : Pat → Pat
  | grp : Pat → Pat

/-- Is the character at index `i` (if any) a word character? -/
def wordCharAt (s : List Char) (i : Nat) : Bool :=
  ((s.get? i).map isWordC).getD false

/-- Python `\b`: positions where word-ness changes (text edges included). -/
def isWB (s : List Char) (pos : Nat) : Bool :=
  (if pos == 0 then false else wordCharAt s (pos - 1)) != wordCharAt s pos

/-- Matcher result: end position of the match and the span of the tracked
capture group, if one was entered. -/
abbrev MRes := Option (Nat × Option (Nat × Nat))

/-- Backtracking matcher in continuation-passing style, following Python `re`
semantics: `alt` prefers the left branch, `opt`/`star` are greedy, and on
failure the engine backtracks through the continuation `k`.

`fuel` decreases on every structural descent, making the recursion structural
(so the kernel can evaluate the matcher).  A fuel of
`(patSize p + 1) * (s.length + 2)` is always sufficient: descending one
pattern constructor costs one unit, and each `star` iteration costs one more,
with iterations bounded by the strict-progress check `pos < q` (every starred
subpattern of the sources consumes at least one character per iteration). -/
def matchPat : Nat → Pat → List Char → Nat → Option (Nat × Nat) →
    (Nat → Option (Nat × Nat) → MRes) → MRes
  | 0, _, _, _, _, _ => none
  | fuel + 1, p, s, pos, g, k =>
    match p with
    | .eps => k pos g
    | .cls f =>
      match s.get? pos with
      | some c => if f c then k (pos + 1) g else none
      | none => none
    | .seq a b => matchPat fuel a s pos g (fun q g2 => matchPat fuel b s q g2 k)
    | .alt a b => (matchPat fuel a s pos g k) <|> (matchPat fuel b s pos g k)
    | .opt a => (matchPat fuel a s pos g k) <|> k pos g
    | .star a =>
      (matchPat fuel a s pos g
        (fun q g2 => if pos < q then matchPat fuel (.star a) s q g2 k else none))
        <|> k pos g
    | .wb => if isWB s pos then k pos g else none
    | .nla a =>
      match matchPat fuel a s pos g (fun q g2 => some (q, g2)) with
      | some _ => none
      | none => k pos g
    | .grp a => matchPat fuel a s pos g (fun q _ => k q (some (pos, q)))

/-- Size of a pattern, for the fuel bound. -/
def patSize : Pat → Nat
  | .eps => 1
  | .cls _ => 1
  | .wb => 1
  | .seq a b => 1 + patSize a + patSize b
  | .alt a b => 1 + patSize a + patSize b
  | .opt a => 1 + patSize a
  | .star a => 1 + patSize a
  | .nla a => 1 + patSize a
  | .grp a => 1 + patSize a

/-- One match as reported by the engine: whole-match span plus the tracked
group's span. -/
structure RMatch where
  ms : Nat
  me : Nat
  grpSpan : Option (Nat × Nat)
deriving DecidableEq, Repr

/-- Try to match pattern `p` anchored at position `pos`, with ample fuel. -/
def tryMatchAt (p : Pat) (s : List Char) (pos : Nat) : MRes :=
  matchPat ((patSize p + 1) * (s.length + 2)) p s pos none (fun e g => some (e, g))

/-- Scanning loop of `re.finditer`: try each position left to right, emit the
match and resume at its end (the sources' patterns never match empty, so the
`pos + 1` fallback is only for exhausted positions). -/
def findFrom (fuel : Nat) (p : Pat) (s : List Char) (pos : Nat) : List RMatch :=
  match fuel with
  | 0 => []
  | f + 1 =>
    if pos > s.length then []
    else
      match tryMatchAt p s pos with
      | some (e, g) => ⟨pos, e, g⟩ :: findFrom f p s (if pos < e then e else pos + 1)
      | none => findFrom f p s (pos + 1)

/-- `re.finditer(pattern, s)` as a list of matches. -/
def findIter (p : Pat) (s : List Char) : List RMatch :=
  findFrom (s.length + 1) p s 0

/-! ### Pattern constructors and the concrete patterns of the sources -/

/-- Case-sensitive literal character. -/
def chC (c : Char) : Pat := .cls (fun x => x == c)

/-- Case-insensitive literal character (`re.IGNORECASE`). -/
def chI (c : Char) : Pat := .cls (icMatches c)

/-- Sequence of patterns. -/
def seqs (ps : List Pat) : Pat := ps.foldr .seq .eps

/-- Case-sensitive literal string. -/
def strC (w : String) : Pat := seqs (w.toList.map chC)

/-- Case-insensitive literal string. -/
def strI (w : String) : Pat := seqs (w.toList.map chI)

/-- Ordered alternation `p1|p2|...` (leftmost preferred, as in `re`). -/
def alts : List Pat → Pat
  | [] => .eps
  | [p] => p
  | p :: ps => .alt p (alts ps)

/-- `p{n}`: exactly `n` repetitions. -/
def repP : Nat → Pat → Pat
  | 0, _ => .eps
  | n + 1, p => .seq p (repP n p)

/-- Greedy `p+`. -/
def plusP (p : Pat) : Pat := .seq p (.star p)

/-- `[A-Z]` (case sensitive). -/
def upperP : Pat := .cls isUpperA

/-- `[a-z]` (case sensitive). -/
def lowerP : Pat := .cls isLowerA

/-- `[A-Z]` / `[a-z]` under `re.IGNORECASE`: any ASCII letter. -/
def letterP : Pat := .cls isLetterA

/-- `\d`. -/
def digitP : Pat := .cls isDigitA

/-- `\s`. -/
def wsP : Pat := .cls isWsA

/-- `\s+`. -/
def wsPlus : Pat := plusP wsP

/-- `[-\s]?` of the phone-number patterns. -/
def sepOpt : Pat := .opt (.cls (fun c => c == '-' || isWsA c))

/-- `[A-Z][a-z]+` under `re.IGNORECASE`: at least two letters. -/
def nameWordI : Pat := .seq letterP (plusP letterP)

/-- `[A-Z][a-z]+(?:\s+[A-Z][a-z]+)*` under `re.IGNORECASE` — the "name" part
shared by the contextual patterns of `try.py`. -/
def nameI : Pat := .seq nameWordI (.star (.seq wsPlus nameWordI))

/-- `try.py` `name_indicators[0]`: `\b(Mr\.|Mrs\.|Ms\.|Dr\.)\s+(name)`.
`grp` marks the group the source reads back (its last group). -/
def ctx1 : Pat :=
  seqs [.wb, alts [strI "Mr.", strI "Mrs.", strI "Ms.", strI "Dr."], wsPlus, .grp nameI]

/-- `name_indicators[1]`: `\b(meneer|mevrouw|dokter)\s+(name)`. -/
def ctx2 : Pat :=
  seqs [.wb, alts [strI "meneer", strI "mevrouw", strI "dokter"], wsPlus, .grp nameI]

/-- `name_indicators[2]`: `\b(name)\s+(zei|vertelde|sprak|belt)`.  The last
group — the one the source turns into a span — is the verb, not the name. -/
def ctx3 : Pat :=
  seqs [.wb, nameI, wsPlus, .grp (alts [strI "zei", strI "vertelde", strI "sprak", strI "belt"])]

/-- `name_indicators[3]`: `(sprak|praatte|overlegde|belde) met\s+(name)`. -/
def ctx4 : Pat :=
  seqs [alts [strI "sprak", strI "praatte", strI "overlegde", strI "belde"],
    strI " met", wsPlus, .grp nameI]

/-- `name_indicators[4]`: `\bik\s+ben\s+(name)`. -/
def ctx5 : Pat := seqs [.wb, strI "ik", wsPlus, strI "ben", wsPlus, .grp nameI]

/-- `name_indicators[5]`: `\bhij\s+heet\s+(name)`. -/
def ctx6 : Pat := seqs [.wb, strI "hij", wsPlus, strI "heet", wsPlus, .grp nameI]

/-- `name_indicators[6]`: `\bzij\s+heet\s+(name)`. -/
def ctx7 : Pat := seqs [.wb, strI "zij", wsPlus, strI "heet", wsPlus, .grp nameI]

/-- `name_indicators[7]`: `\bmet\s+(name)\s+gesproken`. -/
def ctx8 : Pat := seqs [.wb, strI "met", wsPlus, .grp nameI, wsPlus, strI "gesproken"]

/-- `name_indicators[8]`: `\b(name)\s+heeft\s+(?:geen|wel)`. -/
def ctx9 : Pat :=
  seqs [.wb, .grp nameI, wsPlus, strI "heeft", wsPlus, alts [strI "geen", strI "wel"]]

/-- `name_indicators[9]`: `\bwaarom\s+(name)\s+geen`. -/
def ctx10 : Pat := seqs [.wb, strI "waarom", wsPlus, .grp nameI, wsPlus, strI "geen"]

/-- `name_indicators[10]`: `\bkan\s+(name)\s+niet`. -/
def ctx11 : Pat := seqs [.wb, strI "kan", wsPlus, .grp nameI, wsPlus, strI "niet"]

/-- `name_indicators[11]`: `\b(name)\s+kan\s+niet`. -/
def ctx12 : Pat := seqs [.wb, .grp nameI, wsPlus, strI "kan", wsPlus, strI "niet"]

/-- The ordered `name_indicators` list of
`PrecisionImprovedHybridPersonRecognizer.__init__`. -/
def contextualPatterns : List Pat :=
  [ctx1, ctx2, ctx3, ctx4, ctx5, ctx6, ctx7, ctx8, ctx9, ctx10, ctx11, ctx12]

/-- EMAIL_ADDRESS pattern (both files):
`\b[A-Za-z0-9._%+-]+@[A-Za-z0-9.-]+\.[A-Z|a-z]{2,}\b`.  Note the literal `|`
inside the final class, faithfully kept. -/
def emailPat : Pat :=
  seqs [.wb,
    plusP (.cls (fun c => isLetterA c || isDigitA c || c == '.' || c == '_'
      || c == '%' || c == '+' || c == '-')),
    chC '@',
    plusP (.cls (fun c => isLetterA c || isDigitA c || c == '.' || c == '-')),
    chC '.',
    .cls (fun c => isUpperA c || c == '|' || isLowerA c),
    plusP (.cls (fun c => isUpperA c || c == '|' || isLowerA c)),
    .wb]

/-- ADDRESS pattern (both files):
`\b[A-Z][a-z]+(?:straat|weg|laan|plein|singel|kade|gracht)\s+\d+[a-zA-Z]?\b`. -/
def addressPat : Pat :=
  seqs [.wb, upperP, plusP lowerP,
    alts [strC "straat", strC "weg", strC "laan", strC "plein", strC "singel",
      strC "kade", strC "gracht"],
    wsPlus, plusP digitP, .opt (.cls isLetterA), .wb]

/-- `PhoneNumberRecognizer.patterns`, in source order.  The six raw patterns:
`\+31\d{9}\b`, `\+31\s?\d{2}\s?\d{7}\b`, `0\d{9}\b`, `0\d{2}[-\s]?\d{7}\b`,
`0\d{3}[-\s]?\d{6}\b`, `\b\d{2}[-\s]?\d{2}[-\s]?\d{2}[-\s]?\d{2}[-\s]?\d{2}\b`. -/
def phonePatterns : List Pat :=
  [seqs [chC '+', strC "31", repP 9 digitP, .wb],
   seqs [chC '+', strC "31", .opt wsP, repP 2 digitP, .opt wsP, repP 7 digitP, .wb],
   seqs [chC '0', repP 9 digitP, .wb],
   seqs [chC '0', repP 2 digitP, sepOpt, repP 7 digitP, .wb],
   seqs [chC '0', repP 3 digitP, sepOpt, repP 6 digitP, .wb],
   seqs [.wb, repP 2 digitP, sepOpt, repP 2 digitP, sepOpt, repP 2 digitP,
     sepOpt, repP 2 digitP, sepOpt, repP 2 digitP, .wb]]

/-- POSTAL_CODE pattern (both files):
`\b\d{4}\s?[A-Za-z]{2}\b|\b\d{4}-[A-Za-z]{2}\b`. -/
def postalPat : Pat :=
  .alt (seqs [.wb, repP 4 digitP, .opt wsP, repP 2 (.cls isLetterA), .wb])
    (seqs [.wb, repP 4 digitP, chC '-', repP 2 (.cls isLetterA), .wb])

/-- `anon.py` PERSON pattern:
`\b(?!(?:Mijn|Je)\b)(?:[A-Z][a-z]+(?:\s+(?:van|de|der|den|van der|van de|van den))?\s+)*[A-Z][a-z]+\b`
(case sensitive). -/
def personAnonPat : Pat :=
  seqs [.wb,
    .nla (.seq (.alt (strC "Mijn") (strC "Je")) .wb),
    .star (seqs [.seq upperP (plusP lowerP),
      .opt (.seq wsPlus (alts [strC "van", strC "de", strC "der", strC "den",
        strC "van der", strC "van de", strC "van den"])),
      wsPlus]),
    .seq upperP (plusP lowerP),
    .wb]

/-! ### Data model and recognizers -/

/-- `presidio_analyzer.RecognizerResult` as used by the sources: an entity
category, a half-open character range, and a confidence score.  The Python
field `end` is a Lean keyword; it is named `stop` here. -/
structure RecognizerResult where
  entity_type : String
  start : Nat
  stop : Nat
  score : ℚ
deriving DecidableEq, Repr

/-- Spans of a whole-match recognizer (`CustomRecognizer`,
`PhoneNumberRecognizer`, `PostalCodeRecognizer`): one span per match at a
fixed category and score. -/
def matchSpans (name : String) (score : ℚ) (p : Pat) (s : List Char) :
    List RecognizerResult :=
  (findIter p s).map fun m => ⟨name, m.ms, m.me, score⟩

/-- `CustomRecognizer("EMAIL_ADDRESS", ...).analyze` (both files). -/
def emailSpans (s : List Char) : List RecognizerResult :=
  matchSpans "EMAIL_ADDRESS" (mkRat 85 100) emailPat s

/-- `CustomRecognizer("ADDRESS", ...).analyze` (both files). -/
def addressSpans (s : List Char) : List RecognizerResult :=
  matchSpans "ADDRESS" (mkRat 85 100) addressPat s

/-- `PhoneNumberRecognizer.analyze` (both files): iterate the six patterns in
order, appending each pattern's matches. -/
def phoneSpans (s : List Char) : List RecognizerResult :=
  phonePatterns.flatMap fun p => matchSpans "PHONE_NUMBER" (mkRat 85 100) p s

/-- `PostalCodeRecognizer.analyze` (both files). -/
def postalSpans (s : List Char) : List RecognizerResult :=
  matchSpans "POSTAL_CODE" (mkRat 85 100) postalPat s

/-- `try.py` lines 30-40: the rule-based part of
`PrecisionImprovedHybridPersonRecognizer.analyze`.  For each contextual
pattern in order, each match contributes one PERSON span at the tracked
group's range (`match.start(match.lastindex)` to that start plus the group
text's length) with score `0.7`. -/
def hybridPatternSpans (s : List Char) : List RecognizerResult :=
  contextualPatterns.flatMap fun p =>
    (findIter p s).filterMap fun m =>
      m.grpSpan.map fun gs => ⟨"PERSON", gs.1, gs.2, mkRat 7 10⟩

/-- One candidate from the Ollama response list: the source reads
`name['start']`, `name['end']` and `name.get('confidence', 0.8)` (the `name`
string field is never used). -/
structure NameCand where
  start : Nat
  stop : Nat
  confidence : Option ℚ
deriving DecidableEq, Repr

/-- Outcome of `requests.post(self.ollama_url, ...)` in
`PrecisionImprovedHybridPersonRecognizer.analyze`.  `unreachable` models the
HTTP call itself raising (connection refused / timeout); `response st parsed`
models a reply with status code `st`, where `parsed = none` means
`eval(response.json()['response'])` (or `.json()` itself) raised and
`parsed = some cands` means it produced the candidate list `cands`. -/
inductive OllamaOutcome where
  | unreachable : OllamaOutcome
  | response : Nat → Option (List NameCand) → OllamaOutcome

/-- The external candidates the recognizer ends up appending, or `none` when
the uncaught `requests.post` exception propagates (`try.py` line 51 sits
outside the `try`/`except`, which only wraps the parsing at lines 58-67;
a non-200 status or a parse failure is swallowed and contributes nothing). -/
def ollamaCands : OllamaOutcome → Option (List NameCand)
  | .unreachable => none
  | .response st parsed =>
    some (if st == 200 then (match parsed with | some ns => ns | none => []) else [])

/-- Python's two-argument `max` on scores: the first argument wins ties.
(Spelled out so that kernel reduction does not get stuck in the order
instances hidden inside Mathlib's `max`.) -/
def pyMax (a b : ℚ) : ℚ := if b ≤ a then a else b

/-- Python `sorted(results, key=lambda x: x.start)`: a stable sort by `start`.
`List.insertionSort` with this relation is stable in the same sense, so it
computes the same list as Python's stable sort. -/
def sortByStart (rs : List RecognizerResult) : List RecognizerResult :=
  rs.insertionSort fun a b => a.start ≤ b.start

/-- The merge sweep of `try.py` lines 72-78, with the accumulator list kept
reversed: append a new span when `result.start > merged[-1].end`, otherwise
merge into the last span (`end = max`, `score = max`; the category of the
accumulator is kept, as in the source which only assigns `.end` and
`.score`). -/
def mergeLoopAux : List RecognizerResult → List RecognizerResult → List RecognizerResult
  | acc, [] => acc.reverse
  | [], r :: rs => mergeLoopAux [r] rs
  | a :: as, r :: rs =>
    if a.stop < r.start then mergeLoopAux (r :: a :: as) rs
    else mergeLoopAux ({ a with stop := max a.stop r.stop, score := pyMax a.score r.score } :: as) rs

/-- `try.py` lines 70-80: sort by start, then the merge sweep. -/
def mergeOverlapping (rs : List RecognizerResult) : List RecognizerResult :=
  mergeLoopAux [] (sortByStart rs)

/-- `PrecisionImprovedHybridPersonRecognizer.analyze` (`try.py` lines 27-80):
contextual-pattern spans, then the Ollama candidates (score
`confidence or 0.8`), sorted and merged.  `none` = the HTTP call raised and
the exception propagates out of `analyze`. -/
def hybridAnalyze (s : List Char) (o : OllamaOutcome) : Option (List RecognizerResult) :=
  (ollamaCands o).map fun cands =>
    mergeOverlapping (hybridPatternSpans s
      ++ cands.map fun c => ⟨"PERSON", c.start, c.stop, c.confidence.getD (mkRat 8 10)⟩)

/-- `CustomAnalyzer.analyze` (`try.py` lines 142-146): run the five
recognizers in registration order (hybrid PERSON, EMAIL_ADDRESS, ADDRESS,
PHONE_NUMBER, POSTAL_CODE), concatenate, and stably sort by `start`.  If the
hybrid recognizer raises, the whole call raises. -/
def customAnalyze (s : List Char) (o : OllamaOutcome) : Option (List RecognizerResult) :=
  (hybridAnalyze s o).map fun hs =>
    sortByStart (hs ++ emailSpans s ++ addressSpans s ++ phoneSpans s ++ postalSpans s)

/-- `detect_sensitive_info` (`try.py` lines 151-153): score-free
`(entity_type, start, end)` triples of the analyzer output. -/
def detectSensitiveInfo (s : List Char) (o : OllamaOutcome) :
    Option (List (String × Nat × Nat)) :=
  (customAnalyze s o).map (List.map fun r => (r.entity_type, r.start, r.stop))

/-- `strip()` : drop leading and trailing whitespace (Python `str.strip`). -/
def stripWs (s : List Char) : List Char :=
  ((s.dropWhile isWsA).reverse.dropWhile isWsA).reverse

/-- Worker for `re.sub(r'\s+', ' ', s)`: `prevWs` records whether the
previous character belonged to a whitespace run (in which case further
whitespace is dropped; the run already emitted its single space). -/
def subWsAux : Bool → List Char → List Char
  | _, [] => []
  | prevWs, c :: cs =>
    if isWsA c then
      if prevWs then subWsAux true cs else ' ' :: subWsAux true cs
    else c :: subWsAux false cs

/-- `re.sub(r'\s+', ' ', s)`: replace every maximal whitespace run by a
single space. -/
def subWs (s : List Char) : List Char := subWsAux false s

/-- `preprocess_text` (`try.py` lines 148-149): `re.sub(r'\s+', ' ', text.strip())`. -/
def preprocessText (s : List Char) : List Char := subWs (stripWs s)

/-- The whitespace clean-up of `anon.py` lines 102-104:
`re.sub(r'\s+', ' ', t)` followed by `.strip()`. -/
def anonFinalize (t : List Char) : List Char := stripWs (subWs t)

/-- The `operators` placeholder map of both `anonymize_text` functions. -/
def placeholderFor (cat : String) : String :=
  if cat == "PERSON" then "<PERSOON>"
  else if cat == "EMAIL_ADDRESS" then "<E-MAIL>"
  else if cat == "ADDRESS" then "<ADRES>"
  else if cat == "PHONE_NUMBER" then "<TELEFOON>"
  else if cat == "POSTAL_CODE" then "<POSTCODE>"
  else "<" ++ cat ++ ">"

/-- Modelled from the spec: the Conflict Resolver of §4.3, which the
repository delegates to the external `presidio_anonymizer.AnonymizerEngine`
(not part of the sources).  Single sweep over the start-sorted spans; a span
with `start > current.end` closes the accumulator, otherwise it merges
(`end = max`, `score = max`, surviving category = the higher-scoring
contributor, ties keeping the current one). -/
def specResolveAux : List RecognizerResult → List RecognizerResult → List RecognizerResult
  | acc, [] => acc.reverse
  | [], r :: rs => specResolveAux [r] rs
  | a :: as, r :: rs =>
    if a.stop < r.start then specResolveAux (r :: a :: as) rs
    else
      specResolveAux
        ({ entity_type := if a.score < r.score then r.entity_type else a.entity_type,
           start := a.start, stop := max a.stop r.stop,
           score := pyMax a.score r.score } :: as) rs

/-- Modelled from the spec: Conflict Resolver entry point (§4.3). -/
def specResolve (rs : List RecognizerResult) : List RecognizerResult :=
  specResolveAux [] rs

/-- Modelled from the spec: the Rewriter of §4.4, which the repository
delegates to the external `presidio_anonymizer.AnonymizerEngine` — replace
each resolved span's range by its category placeholder, processing spans in
descending `start` order so earlier offsets stay valid. -/
def specRewrite (s : List Char) (spans : List RecognizerResult) : List Char :=
  spans.foldr
    (fun sp acc => acc.take sp.start ++ (placeholderFor sp.entity_type).toList ++ acc.drop sp.stop)
    s

/-- The `analyzer_results` list built in `anonymize_text` (`try.py` lines
169-174): the span sequence handed to the rewriting step, rebuilt from the
score-free triples with score `0.85`.  Detection runs on the preprocessed
text (line 156-157). -/
def deliveredSpans (s : List Char) (o : OllamaOutcome) : Option (List RecognizerResult) :=
  (detectSensitiveInfo (preprocessText s) o).map
    (List.map fun t => ⟨t.1, t.2.1, t.2.2, mkRat 85 100⟩)

/-- `anonymize_text` of `try.py` (lines 155-182): preprocess, detect, rebuild
spans at score `0.85`, then the external anonymizer (modelled from the spec
as Conflict Resolver + Rewriter).  No whitespace pass follows. -/
def anonymizeTextTry (s : List Char) (o : OllamaOutcome) : Option (List Char) :=
  (deliveredSpans s o).map fun spans =>
    specRewrite (preprocessText s) (specResolve spans)

/-- `CustomAnalyzer.analyze` of `anon.py` (lines 57-71): simple PERSON
pattern recognizer followed by the same four others; concatenate and stably
sort by `start`.  All scores are `0.85`. -/
def anonAnalyze (s : List Char) : List RecognizerResult :=
  sortByStart (matchSpans "PERSON" (mkRat 85 100) personAnonPat s
    ++ emailSpans s ++ addressSpans s ++ phoneSpans s ++ postalSpans s)

/-- `anonymize_text` of `anon.py` (lines 73-104): analyze the raw text, hand
the spans to the external anonymizer (modelled from the spec), then collapse
whitespace and strip. -/
def anonymizeTextAnon (s : List Char) : List Char :=
  anonFinalize (specRewrite s (specResolve (anonAnalyze s)))

/-! ### Helper lemmas -/

instance : IsTotal RecognizerResult fun a b => a.start ≤ b.start :=
  ⟨fun a b => Nat.le_total a.start b.start⟩

instance : IsTrans RecognizerResult fun a b => a.start ≤ b.start :=
  ⟨fun _ _ _ => Nat.le_trans⟩

/-- The stable sort by `start` really sorts by `start`. -/
theorem sortByStart_sorted (l : List RecognizerResult) :
    List.Pairwise (fun a b => a.start ≤ b.start) (sortByStart l) :=
  List.sorted_insertionSort _ l

/-- Sorting does not change membership. -/
theorem mem_sortByStart {x : RecognizerResult} {l : List RecognizerResult} :
    x ∈ sortByStart l ↔ x ∈ l :=
  List.mem_insertionSort _

/-- Sorting a list that is already sorted by `start` leaves it unchanged. -/
theorem sortByStart_eq_self {l : List RecognizerResult}
    (h : List.Pairwise (fun a b => a.start ≤ b.start) l) : sortByStart l = l :=
  List.Sorted.insertionSort_eq h

/-- Strict separation of consecutive spans: the invariant established by the
merge sweep. -/
def Sep (a b : RecognizerResult) : Prop := a.stop < b.start

/-- The merge sweep always yields strictly separated output: the accumulator
(kept reversed) stays a `flip Sep` chain, because merging only enlarges the
last span's `stop` while its `start` — the only field the invariant looks at —
is untouched, and a new span is only appended under the strict guard. -/
theorem mergeLoopAux_chain :
    ∀ (rs acc : List RecognizerResult), List.Chain' (flip Sep) acc →
      List.Chain' Sep (mergeLoopAux acc rs) := by
  intro rs
  induction rs with
  | nil =>
    intro acc hacc
    cases acc with
    | nil => exact List.chain'_nil
    | cons a as => exact (List.chain'_reverse).mpr hacc
  | cons r rs ih =>
    intro acc hacc
    cases acc with
    | nil => exact ih [r] (List.chain'_singleton r)
    | cons a as =>
      show List.Chain' Sep (if a.stop < r.start then _ else _)
      by_cases hg : a.stop < r.start
      · rw [if_pos hg]
        exact ih (r :: a :: as) (List.chain'_cons.mpr ⟨hg, hacc⟩)
      · rw [if_neg hg]
        refine ih _ (List.chain'_cons'.mpr ⟨?_, (List.chain'_cons'.mp hacc).2⟩)
        intro y hy
        exact (List.chain'_cons'.mp hacc).1 y hy

/-- On a strictly separated input the merge sweep copies the input through:
every guard test succeeds, so each span is appended unchanged. -/
theorem mergeLoopAux_of_sep :
    ∀ (rs : List RecognizerResult) (a : RecognizerResult) (as : List RecognizerResult),
      List.Chain' Sep (a :: rs) →
      mergeLoopAux (a :: as) rs = (a :: as).reverse ++ rs := by
  intro rs
  induction rs with
  | nil =>
    intro a as _
    show (a :: as).reverse = (a :: as).reverse ++ []
    rw [List.append_nil]
  | cons r rs ih =>
    intro a as h
    have hg : a.stop < r.start := (List.chain'_cons.mp h).1
    show (if a.stop < r.start then _ else _) = _
    rw [if_pos hg, ih r (a :: as) (List.chain'_cons.mp h).2]
    simp [List.append_assoc]

/-- Whitespace-pair-freedom: no two consecutive characters are both
whitespace. -/
def NoWsPair (a b : Char) : Prop := ¬(isWsA a = true ∧ isWsA b = true)

/-- After the collapsing worker has just seen whitespace, the next emitted
character is not whitespace. -/
theorem subWsAux_true_head :
    ∀ (l : List Char) (c : Char), (subWsAux true l).head? = some c → isWsA c = false := by
  intro l
  induction l with
  | nil => intro c h; simp [subWsAux] at h
  | cons a l ih =>
    intro c h
    by_cases ha : isWsA a
    · rw [show subWsAux true (a :: l) = subWsAux true l by simp [subWsAux, ha]] at h
      exact ih c h
    · rw [show subWsAux true (a :: l) = a :: subWsAux false l by
        simp [subWsAux, ha]] at h
      simp only [List.head?_cons, Option.some.injEq] at h
      rw [← h]
      exact Bool.of_not_eq_true ha

/-- The collapsing pass never emits two consecutive whitespace characters. -/
theorem subWsAux_chain : ∀ (l : List Char) (b : Bool), List.Chain' NoWsPair (subWsAux b l) := by
  intro l
  induction l with
  | nil => intro b; simp [subWsAux]
  | cons a l ih =>
    intro b
    by_cases ha : isWsA a
    · cases b with
      | true =>
        rw [show subWsAux true (a :: l) = subWsAux true l by simp [subWsAux, ha]]
        exact ih true
      | false =>
        rw [show subWsAux false (a :: l) = ' ' :: subWsAux true l by simp [subWsAux, ha]]
        refine List.chain'_cons'.mpr ⟨?_, ih true⟩
        intro y hy hcon
        rw [subWsAux_true_head l y hy] at hcon
        exact Bool.false_ne_true hcon.2
    · rw [show subWsAux b (a :: l) = a :: subWsAux false l by simp [subWsAux, ha]]
      refine List.chain'_cons'.mpr ⟨?_, ih false⟩
      intro y _ hcon
      exact ha (by simpa using hcon.1)

/-- Dropping a whitespace-satisfying head segment preserves chain-freedom. -/
theorem chain'_dropWhile {p : Char → Bool} :
    ∀ {l : List Char}, List.Chain' NoWsPair l → List.Chain' NoWsPair (l.dropWhile p) := by
  intro l
  induction l with
  | nil => intro h; simp
  | cons a l ih =>
    intro h
    by_cases ha : p a
    · rw [List.dropWhile_cons_of_pos ha]
      exact ih h.tail
    · rwa [List.dropWhile_cons_of_neg ha]

/-- Reversal preserves chain-freedom (the relation is symmetric). -/
theorem chain'_reverse_noWsPair {l : List Char} (h : List.Chain' NoWsPair l) :
    List.Chain' NoWsPair l.reverse := by
  refine (List.chain'_reverse).mpr (h.imp ?_)
  intro a b hab hcon
  exact hab ⟨hcon.2, hcon.1⟩

/-- `strip` preserves chain-freedom. -/
theorem stripWs_chain {l : List Char} (h : List.Chain' NoWsPair l) :
    List.Chain' NoWsPair (stripWs l) :=
  chain'_reverse_noWsPair (chain'_dropWhile (chain'_reverse_noWsPair (chain'_dropWhile h)))

/-- The head of a `dropWhile` result fails the dropped predicate. -/
theorem head_dropWhile_not {p : Char → Bool} :
    ∀ (l : List Char) (c : Char), (l.dropWhile p).head? = some c → p c = false := by
  intro l
  induction l with
  | nil => intro c h; simp at h
  | cons a l ih =>
    intro c h
    by_cases ha : p a
    · rw [List.dropWhile_cons_of_pos ha] at h
      exact ih c h
    · rw [List.dropWhile_cons_of_neg ha] at h
      simp only [List.head?_cons, Option.some.injEq] at h
      rw [← h]
      exact Bool.of_not_eq_true ha

/-- `dropWhile` either empties the list or keeps its last element. -/
theorem getLast?_dropWhile {p : Char → Bool} :
    ∀ l : List Char, l.dropWhile p = [] ∨ (l.dropWhile p).getLast? = l.getLast? := by
  intro l
  induction l with
  | nil => exact Or.inl rfl
  | cons a l ih =>
    by_cases ha : p a
    · rw [List.dropWhile_cons_of_pos ha]
      rcases ih with h | h
      · exact Or.inl h
      · cases l with
        | nil => exact Or.inl rfl
        | cons x xs =>
          refine Or.inr (h.trans ?_)
          simp
    · rw [List.dropWhile_cons_of_neg ha]
      exact Or.inr rfl

/-- The stripped text neither starts nor ends with whitespace. -/
theorem stripWs_ends (l : List Char) :
    (∀ c, (stripWs l).head? = some c → isWsA c = false) ∧
    (∀ c, (stripWs l).getLast? = some c → isWsA c = false) := by
  constructor
  · intro c h
    rw [stripWs, List.head?_reverse] at h
    rcases getLast?_dropWhile (p := isWsA) (l.dropWhile isWsA).reverse with he | hl
    · rw [he] at h; simp at h
    · rw [hl, List.getLast?_reverse] at h
      exact head_dropWhile_not l c h
  · intro c h
    rw [stripWs, List.getLast?_reverse] at h
    exact head_dropWhile_not _ c h

/-- Characters that survive anonymized-output whitespace cleanup. -/
def keepC (c : Char) : Bool := !(isWsA c)

/-- The collapsing pass preserves the non-whitespace characters in order. -/
theorem filter_subWsAux : ∀ (l : List Char) (b : Bool),
    (subWsAux b l).filter keepC = l.filter keepC := by
  intro l
  induction l with
  | nil => intro b; simp [subWsAux]
  | cons a l ih =>
    intro b
    by_cases ha : isWsA a
    · have hka : keepC a = false := by simp [keepC, ha]
      cases b with
      | true =>
        rw [show subWsAux true (a :: l) = subWsAux true l by simp [subWsAux, ha]]
        rw [ih true, List.filter_cons_of_neg (by simp [hka])]
      | false =>
        rw [show subWsAux false (a :: l) = ' ' :: subWsAux true l by simp [subWsAux, ha]]
        rw [List.filter_cons_of_neg (by simp [keepC, isWsA]),
          List.filter_cons_of_neg (by simp [hka]), ih true]
    · have hka : keepC a = true := by simp [keepC, ha]
      rw [show subWsAux b (a :: l) = a :: subWsAux false l by simp [subWsAux, ha]]
      rw [List.filter_cons_of_pos hka, List.filter_cons_of_pos hka, ih false]

/-- Dropping whitespace does not change the non-whitespace characters. -/
theorem filter_dropWhileWs : ∀ l : List Char,
    (l.dropWhile isWsA).filter keepC = l.filter keepC := by
  intro l
  induction l with
  | nil => rfl
  | cons a l ih =>
    by_cases ha : isWsA a
    · rw [List.dropWhile_cons_of_pos ha, ih,
        List.filter_cons_of_neg (by simp [keepC, ha])]
    · rw [List.dropWhile_cons_of_neg ha]

/-- Stripping does not change the non-whitespace characters. -/
theorem filter_stripWs (l : List Char) :
    (stripWs l).filter keepC = l.filter keepC := by
  rw [stripWs, List.filter_reverse, filter_dropWhileWs, List.filter_reverse,
    List.reverse_reverse, filter_dropWhileWs]

/-! ### The claims -/

/-- C1: the span-merge loop of `try.py` (lines 70-80), on exactly the two
overlapping same-category spans `(0, 10, 0.7)` and `(5, 15, 0.9)`, produces
exactly one span `(0, 15, 0.9)`. -/
theorem merge_two_overlapping_same_category_spans :
    mergeOverlapping [⟨"PERSON", 0, 10, mkRat 7 10⟩, ⟨"PERSON", 5, 15, mkRat 9 10⟩]
      = [⟨"PERSON", 0, 15, mkRat 9 10⟩] := rfl

/-- C2 (counterexample): on the text `"0612345678"` (with the external call
returning a non-200 status), the span sequence delivered to the rewriting
step of `try.py`'s `anonymize_text` consists of four pairwise-overlapping
PHONE_NUMBER spans — the non-overlap invariant `resolved[i].end <=
resolved[i+1].start` fails for the delivered sequence. -/
theorem delivered_overlapping_spans_counterexample :
    deliveredSpans ("0612345678".toList) (.response 404 none)
      = some [⟨"PHONE_NUMBER", 0, 10, mkRat 85 100⟩, ⟨"PHONE_NUMBER", 0, 10, mkRat 85 100⟩,
              ⟨"PHONE_NUMBER", 0, 10, mkRat 85 100⟩, ⟨"PHONE_NUMBER", 0, 10, mkRat 85 100⟩] ∧
    ¬ List.Chain' (fun a b => a.stop ≤ b.start)
        ([⟨"PHONE_NUMBER", 0, 10, mkRat 85 100⟩, ⟨"PHONE_NUMBER", 0, 10, mkRat 85 100⟩,
          ⟨"PHONE_NUMBER", 0, 10, mkRat 85 100⟩, ⟨"PHONE_NUMBER", 0, 10, mkRat 85 100⟩]
          : List RecognizerResult) := by
  refine ⟨rfl, fun h => ?_⟩
  have h1 := (List.chain'_cons.mp h).1
  simp at h1

/-- C2 (amended): the only conflict-resolution sweep the repository itself
runs — the merge loop inside the hybrid PERSON recognizer — always produces a
strictly non-overlapping ascending span sequence; the globally aggregated
sequence handed to the (external) rewriting step is only sorted by start. -/
theorem hybrid_output_nonoverlapping (s : List Char) (o : OllamaOutcome)
    (res : List RecognizerResult) (h : hybridAnalyze s o = some res) :
    List.Chain' (fun a b => a.stop < b.start) res := by
  cases ho : ollamaCands o with
  | none =>
    unfold hybridAnalyze at h
    rw [ho] at h
    exact absurd h (by simp)
  | some cs =>
    unfold hybridAnalyze at h
    rw [ho] at h
    obtain rfl := Option.some.inj h
    exact mergeLoopAux_chain _ [] List.chain'_nil

/-- Witness for C2 (amended) at a concrete text and outcome. -/
theorem hybrid_output_nonoverlapping_witness :
    List.Chain' (fun a b => a.stop < b.start)
      ([⟨"PERSON", 7, 16, mkRat 7 10⟩] : List RecognizerResult) :=
  hybrid_output_nonoverlapping ("ik ben Janstraat 5".toList) (.response 404 none)
    [⟨"PERSON", 7, 16, mkRat 7 10⟩] rfl

/-- C3: when the Ollama collaborator is unreachable, the uncaught
`requests.post` exception propagates out of `detect_sensitive_info`
(`try.py` line 51 is outside the `try`), so the call does NOT return
normally — even though, whenever the call does return a response (here a
non-200 one), the pattern-detected PHONE_NUMBER span at offsets (4, 14) of
`"Bel 0612345678"` is present. -/
theorem detect_fails_when_ollama_unreachable :
    detectSensitiveInfo ("Bel 0612345678".toList) .unreachable = none ∧
    detectSensitiveInfo ("Bel 0612345678".toList) (.response 404 none)
      = some [("PHONE_NUMBER", 4, 14), ("PHONE_NUMBER", 4, 14),
              ("PHONE_NUMBER", 4, 14), ("PHONE_NUMBER", 4, 14)] :=
  ⟨rfl, rfl⟩

/-- C4 (parse-failure half): for every text and every response status, an
unparseable response body (`parsed = none`, covering both a failed
`response.json()` and a failing `eval`) is swallowed by the
`try`/`except` of `try.py` lines 58-67 — the detector returns its own merged
pattern spans and no exception escapes.  (The other half of the claim is
refuted by the source itself: line 59 evaluates the response with `eval`.) -/
theorem unparseable_response_swallowed (s : List Char) (st : Nat) :
    hybridAnalyze s (.response st none) = some (mergeOverlapping (hybridPatternSpans s)) := by
  unfold hybridAnalyze ollamaCands
  by_cases h : (st == 200) = true <;> simp [h]

/-- C5 (counterexample): the two spans `(0, 5, 0.7)` and `(5, 10, 0.9)`
satisfy the claimed non-overlap invariant (`end <= next start`, ascending),
yet the merge loop merges them into one span — the sweep merges on
`s.start <= current.end`, so touching spans are not left unchanged. -/
theorem merge_not_idempotent_on_touching_spans :
    List.Chain' (fun a b => a.start ≤ b.start)
      ([⟨"PERSON", 0, 5, mkRat 7 10⟩, ⟨"PERSON", 5, 10, mkRat 9 10⟩]
        : List RecognizerResult) ∧
    List.Chain' (fun a b => a.stop ≤ b.start)
      ([⟨"PERSON", 0, 5, mkRat 7 10⟩, ⟨"PERSON", 5, 10, mkRat 9 10⟩]
        : List RecognizerResult) ∧
    mergeOverlapping [⟨"PERSON", 0, 5, mkRat 7 10⟩, ⟨"PERSON", 5, 10, mkRat 9 10⟩]
      = [⟨"PERSON", 0, 10, mkRat 9 10⟩] ∧
    mergeOverlapping [⟨"PERSON", 0, 5, mkRat 7 10⟩, ⟨"PERSON", 5, 10, mkRat 9 10⟩]
      ≠ [⟨"PERSON", 0, 5, mkRat 7 10⟩, ⟨"PERSON", 5, 10, mkRat 9 10⟩] := by
  refine ⟨?_, ?_, rfl, fun h => ?_⟩
  · exact List.chain'_cons.mpr ⟨by decide, List.chain'_singleton _⟩
  · exact List.chain'_cons.mpr ⟨by decide, List.chain'_singleton _⟩
  · have hlen := congrArg List.length h
    rw [show mergeOverlapping [⟨"PERSON", 0, 5, mkRat 7 10⟩, ⟨"PERSON", 5, 10, mkRat 9 10⟩]
        = [⟨"PERSON", 0, 10, mkRat 9 10⟩] from rfl] at hlen
    simp at hlen

/-- C5 (amended): the merge loop is the identity on every span sequence that
is ascending by start and STRICTLY separated (`end < next start`); the
claim's non-strict `end <= next start` must be tightened because touching
spans are merged. -/
theorem merge_idempotent_on_strictly_separated (l : List RecognizerResult)
    (hsort : List.Chain' (fun a b => a.start ≤ b.start) l)
    (hsep : List.Chain' (fun a b => a.stop < b.start) l) :
    mergeOverlapping l = l := by
  unfold mergeOverlapping
  rw [sortByStart_eq_self ((List.chain'_iff_pairwise).mp hsort)]
  cases l with
  | nil => rfl
  | cons a rs =>
    show mergeLoopAux [a] rs = a :: rs
    rw [mergeLoopAux_of_sep rs a [] hsep]
    rfl

/-- Witness for C5 (amended) at a concrete strictly separated sequence. -/
theorem merge_idempotent_on_strictly_separated_witness :
    mergeOverlapping [⟨"PERSON", 0, 5, mkRat 7 10⟩, ⟨"PERSON", 6, 10, mkRat 9 10⟩]
      = [⟨"PERSON", 0, 5, mkRat 7 10⟩, ⟨"PERSON", 6, 10, mkRat 9 10⟩] :=
  merge_idempotent_on_strictly_separated _
    (List.chain'_cons.mpr ⟨by decide, List.chain'_singleton _⟩)
    (List.chain'_cons.mpr ⟨by decide, List.chain'_singleton _⟩)

/-- C6 (counterexample): `anon.py`'s `anonymize_text` on
`"Bel 0612345678 of mail test@example.com."` flags `"Bel"` as PERSON (its
PERSON pattern matches any capitalized word), so the output is
`"<PERSOON> <TELEFOON> of mail <E-MAIL>."` — not the claimed
`"Bel <TELEFOON> of mail <E-MAIL>."`. -/
theorem anon_endtoend_counterexample :
    anonymizeTextAnon ("Bel 0612345678 of mail test@example.com.".toList)
      = "<PERSOON> <TELEFOON> of mail <E-MAIL>.".toList ∧
    "<PERSOON> <TELEFOON> of mail <E-MAIL>.".toList
      ≠ "Bel <TELEFOON> of mail <E-MAIL>.".toList := by
  refine ⟨rfl, fun h => ?_⟩
  have hlen := congrArg List.length h
  simp at hlen

/-- C6 (amended): `try.py`'s `anonymize_text` (the hybrid pipeline) on
`"Bel 0612345678 of mail test@example.com."` returns exactly
`"Bel <TELEFOON> of mail <E-MAIL>."`, provided the external inference call
returns a response contributing no candidate spans (non-200 status,
unparseable body, or an empty list). -/
theorem try_endtoend_with_quiet_ollama (o : OllamaOutcome)
    (h : ollamaCands o = some []) :
    anonymizeTextTry ("Bel 0612345678 of mail test@example.com.".toList) o
      = some ("Bel <TELEFOON> of mail <E-MAIL>.".toList) := by
  unfold anonymizeTextTry deliveredSpans detectSensitiveInfo customAnalyze hybridAnalyze
  rw [h]
  rfl

/-- Witness for C6 (amended) at a concrete non-200 outcome. -/
theorem try_endtoend_with_quiet_ollama_witness :
    anonymizeTextTry ("Bel 0612345678 of mail test@example.com.".toList)
        (.response 404 none)
      = some ("Bel <TELEFOON> of mail <E-MAIL>.".toList) :=
  try_endtoend_with_quiet_ollama (.response 404 none) rfl

/-- C7 (counterexample): an external-inference candidate with offsets
`(100, 200)` — far beyond the 14-character text `"Bel 0612345678"` — is
delivered verbatim to the rewriting step of `try.py`'s `anonymize_text`; no
offset-validity check drops it. -/
theorem delivered_outofbounds_counterexample :
    deliveredSpans ("Bel 0612345678".toList)
        (.response 200 (some [⟨100, 200, some (mkRat 9 10)⟩]))
      = some [⟨"PHONE_NUMBER", 4, 14, mkRat 85 100⟩, ⟨"PHONE_NUMBER", 4, 14, mkRat 85 100⟩,
              ⟨"PHONE_NUMBER", 4, 14, mkRat 85 100⟩, ⟨"PHONE_NUMBER", 4, 14, mkRat 85 100⟩,
              ⟨"PERSON", 100, 200, mkRat 85 100⟩] ∧
    ("Bel 0612345678".toList).length < 200 :=
  ⟨rfl, by decide⟩

/-- C7 (amended): no offset validation exists — whenever the contextual
patterns produce nothing, every external candidate's `start`/`end` pass
through `detect_sensitive_info` verbatim and reach the rewriting step as a
span (rebuilt at score 0.85), with no bound check against the text length
and no span dropped. -/
theorem external_offsets_delivered_unvalidated (s : List Char) (c : NameCand)
    (hp : hybridPatternSpans (preprocessText s) = [])
    (res : List RecognizerResult)
    (hres : deliveredSpans s (.response 200 (some [c])) = some res) :
    (⟨"PERSON", c.start, c.stop, mkRat 85 100⟩ : RecognizerResult) ∈ res := by
  have h1 : hybridAnalyze (preprocessText s) (.response 200 (some [c]))
      = some [⟨"PERSON", c.start, c.stop, c.confidence.getD (mkRat 8 10)⟩] := by
    unfold hybridAnalyze
    show some (mergeOverlapping (hybridPatternSpans (preprocessText s)
      ++ [⟨"PERSON", c.start, c.stop, c.confidence.getD (mkRat 8 10)⟩])) = _
    rw [hp]
    rfl
  have h2 : deliveredSpans s (.response 200 (some [c])) = some
      (((sortByStart ([⟨"PERSON", c.start, c.stop, c.confidence.getD (mkRat 8 10)⟩]
          ++ emailSpans (preprocessText s) ++ addressSpans (preprocessText s)
          ++ phoneSpans (preprocessText s) ++ postalSpans (preprocessText s))).map
        (fun r => (r.entity_type, r.start, r.stop))).map
        (fun t => ⟨t.1, t.2.1, t.2.2, mkRat 85 100⟩)) := by
    unfold deliveredSpans detectSensitiveInfo customAnalyze
    rw [h1]
    rfl
  rw [h2] at hres
  obtain rfl := Option.some.inj hres
  have m1 : (⟨"PERSON", c.start, c.stop, c.confidence.getD (mkRat 8 10)⟩
      : RecognizerResult) ∈
      ([⟨"PERSON", c.start, c.stop, c.confidence.getD (mkRat 8 10)⟩]
        ++ emailSpans (preprocessText s) ++ addressSpans (preprocessText s)
        ++ phoneSpans (preprocessText s) ++ postalSpans (preprocessText s)) :=
    List.mem_append_left _ (List.mem_append_left _ (List.mem_append_left _
      (List.mem_append_left _ (List.mem_cons_self _ _))))
  have m2 := mem_sortByStart.mpr m1
  have m3 := List.mem_map_of_mem (fun r => (r.entity_type, r.start, r.stop)) m2
  have m4 := List.mem_map_of_mem
    (fun t : String × Nat × Nat =>
      (⟨t.1, t.2.1, t.2.2, mkRat 85 100⟩ : RecognizerResult)) m3
  exact m4

/-- Witness for C7 (amended) at the concrete text `"Bel 0612345678"` and the
out-of-bounds candidate `(100, 200)`. -/
theorem external_offsets_delivered_unvalidated_witness :
    (⟨"PERSON", 100, 200, mkRat 85 100⟩ : RecognizerResult) ∈
      ([⟨"PHONE_NUMBER", 4, 14, mkRat 85 100⟩, ⟨"PHONE_NUMBER", 4, 14, mkRat 85 100⟩,
        ⟨"PHONE_NUMBER", 4, 14, mkRat 85 100⟩, ⟨"PHONE_NUMBER", 4, 14, mkRat 85 100⟩,
        ⟨"PERSON", 100, 200, mkRat 85 100⟩] : List RecognizerResult) :=
  external_offsets_delivered_unvalidated ("Bel 0612345678".toList)
    ⟨100, 200, some (mkRat 9 10)⟩ rfl _ rfl

/-- C8 (counterexample): on `"ik ben Janstraat 5"` (external call returning
non-200) the aggregated result contains a PERSON span (score 0.7) and an
ADDRESS span (score 0.85) with the same start offset 7, and the
LOWER-scoring span comes first — Python's `sorted(key=lambda x: x.start)` is
stable and never consults the score, refuting the higher-score-first tie
rule. -/
theorem aggregate_tie_order_counterexample :
    customAnalyze ("ik ben Janstraat 5".toList) (.response 404 none)
      = some [⟨"PERSON", 7, 16, mkRat 7 10⟩, ⟨"ADDRESS", 7, 18, mkRat 85 100⟩] ∧
    (mkRat 7 10 : ℚ) < mkRat 85 100 := by
  refine ⟨rfl, ?_⟩
  rw [Rat.mkRat_eq_div, Rat.mkRat_eq_div]
  norm_num

/-- C8 (amended): the aggregated detection result is sorted ascending by
`start` with a stable sort, so ties keep the emission order of the
recognizers (registration order); scores play no part in the ordering. -/
theorem aggregate_sorted_by_start (s : List Char) (o : OllamaOutcome)
    (res : List RecognizerResult) (h : customAnalyze s o = some res) :
    List.Pairwise (fun a b => a.start ≤ b.start) res := by
  cases ho : hybridAnalyze s o with
  | none =>
    unfold customAnalyze at h
    rw [ho] at h
    exact absurd h (by simp)
  | some hs =>
    unfold customAnalyze at h
    rw [ho] at h
    obtain rfl := Option.some.inj h
    exact sortByStart_sorted _

/-- Witness for C8 (amended) at a concrete text and outcome. -/
theorem aggregate_sorted_by_start_witness :
    List.Pairwise (fun a b => a.start ≤ b.start)
      ([⟨"PERSON", 7, 16, mkRat 7 10⟩, ⟨"ADDRESS", 7, 18, mkRat 85 100⟩]
        : List RecognizerResult) :=
  aggregate_sorted_by_start ("ik ben Janstraat 5".toList) (.response 404 none)
    [⟨"PERSON", 7, 16, mkRat 7 10⟩, ⟨"ADDRESS", 7, 18, mkRat 85 100⟩] rfl

/-- C9: the final output of `anon.py`'s `anonymize_text` is
whitespace-normalized after span replacement — no two consecutive whitespace
characters, no leading or trailing whitespace — and the normalization pass
preserves the non-whitespace characters of the rewritten text verbatim and
in order (so no placeholder, which contains no whitespace, is reordered or
dropped). -/
theorem anon_output_whitespace_normalized (s : List Char) :
    List.Chain' NoWsPair (anonymizeTextAnon s) ∧
    (∀ c, (anonymizeTextAnon s).head? = some c → isWsA c = false) ∧
    (∀ c, (anonymizeTextAnon s).getLast? = some c → isWsA c = false) ∧
    (anonymizeTextAnon s).filter keepC
      = (specRewrite s (specResolve (anonAnalyze s))).filter keepC := by
  unfold anonymizeTextAnon anonFinalize subWs
  exact ⟨stripWs_chain (subWsAux_chain _ false),
    (stripWs_ends _).1, (stripWs_ends _).2,
    by rw [filter_stripWs]; exact filter_subWsAux _ false⟩

/-- C10: `try.py`'s `anonymize_text` discards detector confidences — the
span list delivered to the rewriting step is exactly the audit triples
`(category, start, end)` of `detect_sensitive_info` (which carry no score at
all), each rebuilt with score exactly 0.85. -/
theorem anonymize_rebuilds_scores_at_085 (s : List Char) (o : OllamaOutcome)
    (trips : List (String × Nat × Nat))
    (h : detectSensitiveInfo (preprocessText s) o = some trips) :
    deliveredSpans s o
      = some (trips.map fun t => ⟨t.1, t.2.1, t.2.2, mkRat 85 100⟩) ∧
    ∀ r ∈ trips.map (fun t => (⟨t.1, t.2.1, t.2.2, mkRat 85 100⟩ : RecognizerResult)),
      r.score = mkRat 85 100 := by
  constructor
  · unfold deliveredSpans
    rw [h]
    rfl
  · intro r hr
    obtain ⟨t, _, rfl⟩ := List.mem_map.mp hr
    rfl

/-- Witness for C10 at the concrete text `"Bel 0612345678"`. -/
theorem anonymize_rebuilds_scores_at_085_witness :
    deliveredSpans ("Bel 0612345678".toList) (.response 404 none)
      = some ([("PHONE_NUMBER", 4, 14), ("PHONE_NUMBER", 4, 14),
               ("PHONE_NUMBER", 4, 14), ("PHONE_NUMBER", 4, 14)].map
          fun t => ⟨t.1, t.2.1, t.2.2, mkRat 85 100⟩) ∧
    ∀ r ∈ [("PHONE_NUMBER", 4, 14), ("PHONE_NUMBER", 4, 14),
           ("PHONE_NUMBER", 4, 14), ("PHONE_NUMBER", 4, 14)].map
        (fun t => (⟨t.1, t.2.1, t.2.2, mkRat 85 100⟩ : RecognizerResult)),
      r.score = mkRat 85 100 :=
  anonymize_rebuilds_scores_at_085 ("Bel 0612345678".toList) (.response 404 none)
    [("PHONE_NUMBER", 4, 14), ("PHONE_NUMBER", 4, 14),
     ("PHONE_NUMBER", 4, 14), ("PHONE_NUMBER", 4, 14)] rfl

end Anonymiser
